import Mathlib

/-!
Shallow embedding of `ai2business/kpi_collector/finance_collector.py`
(Builder/Director accumulation pattern) and, for the staged-execution
variant, of the `AutoMLPipeline` context exercised by
`ai2business/ai_engines/test/test_automl_benchmark.py`.

Modelling conventions:
* Result values (pandas DataFrames, dictionaries, numpy arrays) are an
  opaque type parameter `V`.
* Python `dict` is an insertion-ordered association list
  `List (String × V)`; assignment `d[k] = v` is `pyDictSet` (overwrite in
  place when the key exists, append otherwise).
* `getattr` failure (missing attribute) is `PyError.attributeError`;
  fallible code returns `Except PyError _`.
* Object identity of the per-builder `FinanceProduct` matters for the
  claims about aliasing and swap-without-drain, so products live in an
  explicit heap (`Heap`) of addresses; `self._product` is an address.
  All other state is passed by value.
-/

/-- A Python exception, as far as this module can raise one:
`AttributeError` carrying the missing attribute's name. -/
inductive PyError where
  | attributeError : String → PyError
  deriving DecidableEq, Repr

/-- A Python function object as `FinanceProduct.add_product` sees it:
it has a `__name__` (the `name` field) and an identity (`oid`), so two
distinct function objects may share a `__name__`. -/
structure Callable where
  name : String
  oid : Nat
  deriving DecidableEq, Repr

/-- Python dict assignment `d[k] = v` on an insertion-ordered dict:
if `k` is present its value is overwritten in place (position kept),
otherwise the pair is appended at the end. -/
def pyDictSet {V : Type} (d : List (String × V)) (k : String) (v : V) :
    List (String × V) :=
  if d.any (fun p => p.1 = k) then
    d.map (fun p => if p.1 = k then (k, v) else p)
  else
    d ++ [(k, v)]

/-- Python dict lookup `d[k]` as an option: the first entry whose key is
`k` (an insertion-ordered dict has at most one). -/
def pyDictGet {V : Type} (d : List (String × V)) (k : String) : Option V :=
  (d.find? (fun p => p.1 = k)).map (fun p => p.2)

/-- `FinanceProduct`: "contains the dictionary and the return value of
it".  `product_parts` is the dict created empty by `__init__`. -/
structure FinanceProduct (V : Type) where
  product_parts : List (String × V)
  deriving DecidableEq, Repr

/-- `FinanceProduct()` — constructor, `self.product_parts = {}`. -/
def FinanceProduct.construct {V : Type} : FinanceProduct V := ⟨[]⟩

/-- `FinanceProduct.add_product(key, value)`:
`self.product_parts[key.__name__] = value`.  The key argument is a
Callable; the storage key is its `__name__`. -/
def FinanceProduct.add_product {V : Type} (p : FinanceProduct V)
    (key : Callable) (value : V) : FinanceProduct V :=
  ⟨pyDictSet p.product_parts key.name value⟩

/-- `FinanceProduct.list_product_parts` (property, no mutation):
`f"Product parts: {', '.join(self.product_parts)}"`; joining a dict
iterates its keys in insertion order. -/
def FinanceProduct.list_product_parts {V : Type} (p : FinanceProduct V) :
    String :=
  "Product parts: " ++ String.intercalate ", " (p.product_parts.map (fun q => q.1))

/-- `FinanceProduct.return_product` (property, no mutation): returns
`self.product_parts` itself. -/
def FinanceProduct.return_product {V : Type} (p : FinanceProduct V) :
    List (String × V) :=
  p.product_parts

/-- A `yf.Ticker` session handle: exposes named sub-attributes
(`dividends`, `splits`, …); `none` models the backend failing to resolve
that attribute for this subject. -/
structure Ticker (V : Type) where
  attrs : String → Option V

/-- A `yf.Tickers` container as `all_trickers`'s annotation expects:
its `tickers` attribute is a namespace mapping each ticker symbol
(as an attribute name) to a `Ticker` session. -/
structure Tickers (V : Type) where
  tickers : String → Option (Ticker V)

/-- What may actually be passed as the `tickers` argument of
`all_trickers`: either a genuine `yf.Tickers` object (as annotated), or
the plain dict `{str(isin): yf.Ticker(isin) …}` that
`DesignerFinanceCollector.__init__` stores in `self.tickers`. -/
inductive TickersArg (V : Type) where
  | tickersObj : Tickers V → TickersArg V
  | plainDict : List (String × Ticker V) → TickersArg V

/-- Attribute access `x.tickers`: succeeds on a `yf.Tickers` object,
raises `AttributeError('tickers')` on a plain dict, which has no such
attribute. -/
def TickersArg.tickersAttrib {V : Type} :
    TickersArg V → Except PyError (String → Option (Ticker V))
  | TickersArg.tickersObj t => Except.ok t.tickers
  | TickersArg.plainDict _ => Except.error (PyError.attributeError "tickers")

/-- `getattr(obj, name)`: raises `AttributeError(name)` when absent. -/
def pyGetattr {A : Type} (lookup : String → Option A) (attr : String) :
    Except PyError A :=
  match lookup attr with
  | some a => Except.ok a
  | none => Except.error (PyError.attributeError attr)

/-- `DesignerFinanceCollector.all_trickers(tickers, keyword_list, func)`:
`{keyword: getattr(getattr(tickers.tickers, keyword), func) for keyword
in keyword_list}`.  The comprehension body — including the `tickers.tickers`
attribute access — is evaluated once per keyword, so an empty keyword
list yields `{}` without touching `tickers`. -/
def all_trickers {V : Type} (tickers : TickersArg V)
    (keyword_list : List String) (func : String) :
    Except PyError (List (String × V)) :=
  keyword_list.foldlM
    (fun acc keyword => do
      let ns ← tickers.tickersAttrib
      let t ← pyGetattr ns keyword
      let v ← pyGetattr t.attrs func
      pure (pyDictSet acc keyword v))
    []

/-- The heap of `FinanceProduct` objects: `next` is the next fresh
address, `store` the contents at each address. -/
structure Heap (V : Type) where
  next : Nat
  store : Nat → FinanceProduct V

/-- The empty heap (no product allocated yet; unallocated addresses read
as the empty product, which no theorem relies on). -/
def Heap.emptyHeap {V : Type} : Heap V :=
  ⟨0, fun _ => FinanceProduct.construct⟩

/-- Allocate a fresh `FinanceProduct` object, returning its address. -/
def Heap.alloc {V : Type} (h : Heap V) (p : FinanceProduct V) :
    Nat × Heap V :=
  (h.next, ⟨h.next + 1, fun a => if a = h.next then p else h.store a⟩)

/-- Overwrite the product stored at address `a` (in-place mutation of
that object). -/
def Heap.write {V : Type} (h : Heap V) (a : Nat) (p : FinanceProduct V) :
    Heap V :=
  ⟨h.next, fun a0 => if a0 = a then p else h.store a0⟩

/-- Mutable state of a `DesignerFinanceCollector` instance.
`tickers` is the plain dict `{str(isin): yf.Ticker(isin) for isin in
keyword_list}` built by `__init__`; `df` is `self.df` (initially an
empty `pd.DataFrame()`, modelled as `none`); `dict` is `self.dict`
(initially `{}`); `productAddr` is the reference `self._product`. -/
structure DesignerState (V : Type) where
  keyword_list : List String
  tickers : List (String × Ticker V)
  df : Option V
  dict : List (String × V)
  productAddr : Nat

/-- `DesignerFinanceCollector.reset()`: `self._product = FinanceProduct()`
— allocates a fresh empty product and repoints `self._product` at it. -/
def DesignerState.reset {V : Type} (s : DesignerState V) (h : Heap V) :
    DesignerState V × Heap V :=
  let ah := h.alloc FinanceProduct.construct
  ({ s with productAddr := ah.1 }, ah.2)

/-- `DesignerFinanceCollector.__init__(keyword_list)`: stores the keyword
list, builds the per-subject session dict (one `yf.Ticker(isin)` per
subject, via the backend session factory `backend`), initialises `df`
and `dict`, then calls `reset()` which allocates `self._product` (the
placeholder address 0 set before `reset` is never observed). -/
def DesignerState.construct {V : Type} (backend : String → Ticker V)
    (keyword_list : List String) (h : Heap V) : DesignerState V × Heap V :=
  DesignerState.reset
    { keyword_list := keyword_list
      tickers := keyword_list.foldl
        (fun d isin => pyDictSet d isin (backend isin)) []
      df := none
      dict := []
      productAddr := 0 }
    h

/-- `DesignerFinanceCollector.stock` (property): reads out the current
product object (`product = self._product`), calls `self.reset()`, and
returns the saved object.  Returns (address of the collected product,
new state, new heap). -/
def DesignerState.stock {V : Type} (s : DesignerState V) (h : Heap V) :
    Nat × DesignerState V × Heap V :=
  let product := s.productAddr
  let sh := DesignerState.reset s h
  (product, sh.1, sh.2)

/-- Shared body of the nineteen uniform retrieval operations:
`self.dict = self.all_trickers(tickers=self.tickers,
keyword_list=self.keyword_list, func=…)`.  Note the first argument is
`self.tickers`, the plain dict from `__init__`. -/
def DesignerState.runAllTrickers {V : Type} (func : String)
    (s : DesignerState V) : Except PyError (DesignerState V) :=
  (all_trickers (TickersArg.plainDict s.tickers) s.keyword_list func).map
    (fun d => { s with dict := d })

/-- `get_chart_history(...)`: `self.df = self.tickers.history(...)`.
`self.tickers` is the plain dict stored by `__init__`, which has no
`history` attribute, so the call raises `AttributeError('history')`
before any of its eleven parameters is used (they are therefore omitted
here). -/
def DesignerState.get_chart_history {V : Type} (_s : DesignerState V) :
    Except PyError (DesignerState V) :=
  Except.error (PyError.attributeError "history")

/-- `get_isin_code()`. -/
def DesignerState.get_isin_code {V : Type} : DesignerState V → Except PyError (DesignerState V) :=
  DesignerState.runAllTrickers "isin"

/-- `get_major_holders()`. -/
def DesignerState.get_major_holders {V : Type} : DesignerState V → Except PyError (DesignerState V) :=
  DesignerState.runAllTrickers "major_holders"

/-- `get_institutional_holders()`. -/
def DesignerState.get_institutional_holders {V : Type} : DesignerState V → Except PyError (DesignerState V) :=
  DesignerState.runAllTrickers "institutional_holders"

/-- `get_mutualfund_holders()`. -/
def DesignerState.get_mutualfund_holders {V : Type} : DesignerState V → Except PyError (DesignerState V) :=
  DesignerState.runAllTrickers "mutualfund_holders"

/-- `get_dividends()`. -/
def DesignerState.get_dividends {V : Type} : DesignerState V → Except PyError (DesignerState V) :=
  DesignerState.runAllTrickers "dividends"

/-- `get_splits()`. -/
def DesignerState.get_splits {V : Type} : DesignerState V → Except PyError (DesignerState V) :=
  DesignerState.runAllTrickers "splits"

/-- `get_actions()`. -/
def DesignerState.get_actions {V : Type} : DesignerState V → Except PyError (DesignerState V) :=
  DesignerState.runAllTrickers "actions"

/-- `get_info()`. -/
def DesignerState.get_info {V : Type} : DesignerState V → Except PyError (DesignerState V) :=
  DesignerState.runAllTrickers "info"

/-- `get_calendar()`. -/
def DesignerState.get_calendar {V : Type} : DesignerState V → Except PyError (DesignerState V) :=
  DesignerState.runAllTrickers "calendar"

/-- `get_recommendations()`. -/
def DesignerState.get_recommendations {V : Type} : DesignerState V → Except PyError (DesignerState V) :=
  DesignerState.runAllTrickers "recommendations"

/-- `get_earnings()`. -/
def DesignerState.get_earnings {V : Type} : DesignerState V → Except PyError (DesignerState V) :=
  DesignerState.runAllTrickers "earnings"

/-- `get_quarterly_earnings()`. -/
def DesignerState.get_quarterly_earnings {V : Type} : DesignerState V → Except PyError (DesignerState V) :=
  DesignerState.runAllTrickers "quarterly_earnings"

/-- `get_financials()`. -/
def DesignerState.get_financials {V : Type} : DesignerState V → Except PyError (DesignerState V) :=
  DesignerState.runAllTrickers "financials"

/-- `get_quarterly_financials()`. -/
def DesignerState.get_quarterly_financials {V : Type} : DesignerState V → Except PyError (DesignerState V) :=
  DesignerState.runAllTrickers "quarterly_financials"

/-- `get_balancesheet()`. -/
def DesignerState.get_balancesheet {V : Type} : DesignerState V → Except PyError (DesignerState V) :=
  DesignerState.runAllTrickers "balancesheet"

/-- `get_quarterly_balancesheet()`. -/
def DesignerState.get_quarterly_balancesheet {V : Type} : DesignerState V → Except PyError (DesignerState V) :=
  DesignerState.runAllTrickers "quarterly_balancesheet"

/-- `get_cashflow()`. -/
def DesignerState.get_cashflow {V : Type} : DesignerState V → Except PyError (DesignerState V) :=
  DesignerState.runAllTrickers "cashflow"

/-- `get_quarterly_cashflow()`. -/
def DesignerState.get_quarterly_cashflow {V : Type} : DesignerState V → Except PyError (DesignerState V) :=
  DesignerState.runAllTrickers "quarterly_cashflow"

/-- `get_sustainability()`. -/
def DesignerState.get_sustainability {V : Type} : DesignerState V → Except PyError (DesignerState V) :=
  DesignerState.runAllTrickers "sustainability"

/-- `get_options()`. -/
def DesignerState.get_options {V : Type} : DesignerState V → Except PyError (DesignerState V) :=
  DesignerState.runAllTrickers "options"

/-- `FinanceCollector` (the Director): holds at most one installed
builder; `self._builder = None` initially. -/
structure FinanceCollector (V : Type) where
  builderRef : Option (DesignerState V)

/-- `FinanceCollector.__init__()`: "Initialize a fresh and empty
builder" — `self._builder = None`. -/
def FinanceCollector.construct {V : Type} : FinanceCollector V := ⟨none⟩

/-- The `builder` property getter: returns `self._builder`. -/
def FinanceCollector.builder {V : Type} (c : FinanceCollector V) :
    Option (DesignerState V) :=
  c.builderRef

/-- The `builder` property setter: `self._builder = builder`.  It does
nothing else: no drain, no reset of either builder's product. -/
def FinanceCollector.builderSet {V : Type} (c : FinanceCollector V)
    (b : DesignerState V) : FinanceCollector V :=
  { c with builderRef := some b }

/-- The `AttributeError` raised by a forwarding call when `self._builder`
is `None`: attribute lookup of the builder method on `None` fails. -/
def noneAttr (method : String) : PyError :=
  PyError.attributeError ("NoneType object has no attribute " ++ method)

/-- Shared body of every forwarding method: `self.builder.get_X(...)` —
with no builder installed the method lookup on `None` raises; otherwise
the like-named builder operation runs and the (in-place mutated) builder
is the installed one afterwards.  An `Except.error` result models the
exception propagating with no observable change to the Director. -/
def FinanceCollector.forward {V : Type} (method : String)
    (op : DesignerState V → Except PyError (DesignerState V))
    (c : FinanceCollector V) : Except PyError (FinanceCollector V) :=
  match c.builderRef with
  | none => Except.error (noneAttr method)
  | some b => (op b).map (fun b2 => { c with builderRef := some b2 })

/-- `find_chart_histogram(...)` (defaults applied; the builder call fails
before using them, see `get_chart_history`). -/
def FinanceCollector.find_chart_histogram {V : Type} : FinanceCollector V → Except PyError (FinanceCollector V) :=
  FinanceCollector.forward "get_chart_history" DesignerState.get_chart_history

/-- `find_isin_code()`. -/
def FinanceCollector.find_isin_code {V : Type} : FinanceCollector V → Except PyError (FinanceCollector V) :=
  FinanceCollector.forward "get_isin_code" DesignerState.get_isin_code

/-- `find_major_holders()`. -/
def FinanceCollector.find_major_holders {V : Type} : FinanceCollector V → Except PyError (FinanceCollector V) :=
  FinanceCollector.forward "get_major_holders" DesignerState.get_major_holders

/-- `find_institutional_holders()`. -/
def FinanceCollector.find_institutional_holders {V : Type} : FinanceCollector V → Except PyError (FinanceCollector V) :=
  FinanceCollector.forward "get_institutional_holders" DesignerState.get_institutional_holders

/-- `find_mutualfund_holders()`. -/
def FinanceCollector.find_mutualfund_holders {V : Type} : FinanceCollector V → Except PyError (FinanceCollector V) :=
  FinanceCollector.forward "get_mutualfund_holders" DesignerState.get_mutualfund_holders

/-- `find_dividends()`. -/
def FinanceCollector.find_dividends {V : Type} : FinanceCollector V → Except PyError (FinanceCollector V) :=
  FinanceCollector.forward "get_dividends" DesignerState.get_dividends

/-- `find_splits()`. -/
def FinanceCollector.find_splits {V : Type} : FinanceCollector V → Except PyError (FinanceCollector V) :=
  FinanceCollector.forward "get_splits" DesignerState.get_splits

/-- `find_actions()`. -/
def FinanceCollector.find_actions {V : Type} : FinanceCollector V → Except PyError (FinanceCollector V) :=
  FinanceCollector.forward "get_actions" DesignerState.get_actions

/-- `find_info()`. -/
def FinanceCollector.find_info {V : Type} : FinanceCollector V → Except PyError (FinanceCollector V) :=
  FinanceCollector.forward "get_info" DesignerState.get_info

/-- `find_calendar()`. -/
def FinanceCollector.find_calendar {V : Type} : FinanceCollector V → Except PyError (FinanceCollector V) :=
  FinanceCollector.forward "get_calendar" DesignerState.get_calendar

/-- `find_recommendations()`. -/
def FinanceCollector.find_recommendations {V : Type} : FinanceCollector V → Except PyError (FinanceCollector V) :=
  FinanceCollector.forward "get_recommendations" DesignerState.get_recommendations

/-- `find_earnings()`. -/
def FinanceCollector.find_earnings {V : Type} : FinanceCollector V → Except PyError (FinanceCollector V) :=
  FinanceCollector.forward "get_earnings" DesignerState.get_earnings

/-- `find_quarterly_earnings()`. -/
def FinanceCollector.find_quarterly_earnings {V : Type} : FinanceCollector V → Except PyError (FinanceCollector V) :=
  FinanceCollector.forward "get_quarterly_earnings" DesignerState.get_quarterly_earnings

/-- `find_financials()`. -/
def FinanceCollector.find_financials {V : Type} : FinanceCollector V → Except PyError (FinanceCollector V) :=
  FinanceCollector.forward "get_financials" DesignerState.get_financials

/-- `find_quarterly_financials()`. -/
def FinanceCollector.find_quarterly_financials {V : Type} : FinanceCollector V → Except PyError (FinanceCollector V) :=
  FinanceCollector.forward "get_quarterly_financials" DesignerState.get_quarterly_financials

/-- `find_balancesheet()`. -/
def FinanceCollector.find_balancesheet {V : Type} : FinanceCollector V → Except PyError (FinanceCollector V) :=
  FinanceCollector.forward "get_balancesheet" DesignerState.get_balancesheet

/-- `find_quarterly_balancesheet()`. -/
def FinanceCollector.find_quarterly_balancesheet {V : Type} : FinanceCollector V → Except PyError (FinanceCollector V) :=
  FinanceCollector.forward "get_quarterly_balancesheet" DesignerState.get_quarterly_balancesheet

/-- `find_cashflow()`. -/
def FinanceCollector.find_cashflow {V : Type} : FinanceCollector V → Except PyError (FinanceCollector V) :=
  FinanceCollector.forward "get_cashflow" DesignerState.get_cashflow

/-- `find_quarterly_cashflow()`. -/
def FinanceCollector.find_quarterly_cashflow {V : Type} : FinanceCollector V → Except PyError (FinanceCollector V) :=
  FinanceCollector.forward "get_quarterly_cashflow" DesignerState.get_quarterly_cashflow

/-- `find_sustainability()`. -/
def FinanceCollector.find_sustainability {V : Type} : FinanceCollector V → Except PyError (FinanceCollector V) :=
  FinanceCollector.forward "get_sustainability" DesignerState.get_sustainability

/-- `find_options()`. -/
def FinanceCollector.find_options {V : Type} : FinanceCollector V → Except PyError (FinanceCollector V) :=
  FinanceCollector.forward "get_options" DesignerState.get_options

/-- One observable action on a live `DesignerFinanceCollector`: a uniform
retrieval operation (by its `func` string), the chart-history call, a
`reset`, a `stock` read, or a direct `self._product.add_product(k, v)`
call into the current accumulator. -/
inductive BOp (V : Type) where
  | getOp : String → BOp V
  | chartHistory : BOp V
  | resetOp : BOp V
  | stockOp : BOp V
  | addProduct : Callable → V → BOp V

/-- Run one action on (builder state, heap).  An operation that raises
leaves the state exactly as it was (the exception propagates; nothing
was stored). -/
def BOp.step {V : Type} (op : BOp V) (sh : DesignerState V × Heap V) :
    DesignerState V × Heap V :=
  match op with
  | BOp.getOp f =>
      match DesignerState.runAllTrickers f sh.1 with
      | Except.ok s2 => (s2, sh.2)
      | Except.error _ => sh
  | BOp.chartHistory => sh
  | BOp.resetOp => DesignerState.reset sh.1 sh.2
  | BOp.stockOp => (DesignerState.stock sh.1 sh.2).2
  | BOp.addProduct k v =>
      (sh.1,
        sh.2.write sh.1.productAddr
          ((sh.2.store sh.1.productAddr).add_product k v))

/-- Run a sequence of actions in order. -/
def BOp.run {V : Type} (ops : List (BOp V)) (sh : DesignerState V × Heap V) :
    DesignerState V × Heap V :=
  ops.foldl (fun acc op => BOp.step op acc) sh

/-- Modelled from the spec: the module `ai2business/ai_engines/
automl_neural_network.py` is not under `src/` (only its test is), so the
staged-execution stages of §4.5 are modelled from the spec's words,
grounded in the test's usage (`AutoMLPipeline(stage)`, the `train`
stage slot, `run_automl()`, `return_automl`).  A stage is a strategy
object carrying the value its backend computes when it runs; the
configure-task and load stages also produce a model (the test asserts
`return_automl["model"]` is set right after a configure-task run);
`save` stores nothing in the results mapping. -/
inductive AutoMLStage (V : Type) where
  | configureTask : V → AutoMLStage V
  | fit : V → AutoMLStage V
  | evaluate : V → AutoMLStage V
  | predict : V → AutoMLStage V
  | save : AutoMLStage V
  | load : V → AutoMLStage V

/-- Modelled from the spec: the logical result key a stage writes when
run — "model" for configure/fit/load, "evaluation" for evaluate,
"prediction" for predict; the terminal save stage writes none. -/
def AutoMLStage.resultEntry {V : Type} : AutoMLStage V → Option (String × V)
  | AutoMLStage.configureTask v => some ("model", v)
  | AutoMLStage.fit v => some ("model", v)
  | AutoMLStage.evaluate v => some ("evaluation", v)
  | AutoMLStage.predict v => some ("prediction", v)
  | AutoMLStage.save => none
  | AutoMLStage.load v => some ("model", v)

/-- Modelled from the spec: the staged-execution context — holds the
current stage (`train`, reassigned by the caller between runs) and the
single shared results mapping, which is NOT reset on read. -/
structure AutoMLPipeline (V : Type) where
  train : AutoMLStage V
  automl : List (String × V)

/-- Modelled from the spec: `AutoMLPipeline(stage)` — installs the
initial stage with an empty shared results mapping. -/
def AutoMLPipeline.construct {V : Type} (stage : AutoMLStage V) :
    AutoMLPipeline V :=
  ⟨stage, []⟩

/-- Modelled from the spec: assigning `context.train = stage` swaps the
strategy object only; the shared results mapping is untouched. -/
def AutoMLPipeline.setTrain {V : Type} (c : AutoMLPipeline V)
    (stage : AutoMLStage V) : AutoMLPipeline V :=
  { c with train := stage }

/-- Modelled from the spec: `run_automl()` dispatches on the current
stage and stores that stage's result under its logical key in the shared
mapping (overwriting only that key). -/
def AutoMLPipeline.run_automl {V : Type} (c : AutoMLPipeline V) :
    AutoMLPipeline V :=
  match c.train.resultEntry with
  | some kv => { c with automl := pyDictSet c.automl kv.1 kv.2 }
  | none => c

/-- Modelled from the spec: `return_automl` — a plain read of the shared
results mapping; reading does not drain or consume it. -/
def AutoMLPipeline.return_automl {V : Type} (c : AutoMLPipeline V) :
    List (String × V) :=
  c.automl

/-- Spec-side helper: `oor a b` is `a` unless `a` is `none` (Python-style
fallback, used to state lookup characterisations). -/
def oor {A : Type} : Option A → Option A → Option A
  | some a, _ => some a
  | none, b => b

/-- Spec-side helper: the value stored for key `n` by the LAST add in a
sequence of `(callable, value)` adds targeting `n`, if any (later adds
shadow earlier ones). -/
def lastAdded {V : Type} : List (Callable × V) → String → Option V
  | [], _ => none
  | kv :: rest, n =>
      oor (lastAdded rest n) (if kv.1.name = n then some kv.2 else none)

/-- Spec-side helper: the distinct elements of a list in order of FIRST
occurrence (Python dict key order under repeated assignment). -/
def firstOccur : List String → List String
  | [] => []
  | n :: rest => n :: (firstOccur rest).filter (fun m => m ≠ n)

/-- Fold a sequence of `add_product` calls over a product. -/
def runAdds {V : Type} (p : FinanceProduct V) (adds : List (Callable × V)) :
    FinanceProduct V :=
  adds.foldl (fun q kv => q.add_product kv.1 kv.2) p

theorem pyDictSet_cons_ne {V : Type} (a : String × V) (d : List (String × V))
    (k : String) (v : V) (h : a.1 ≠ k) :
    pyDictSet (a :: d) k v = a :: pyDictSet d k v := by
  unfold pyDictSet
  simp only [List.any_cons, decide_eq_true_eq, h, decide_False, Bool.false_or]
  by_cases hd : d.any (fun p => decide (p.1 = k)) = true
  · simp [hd, h]
  · simp at hd
    simp [hd, h]

theorem pyDictGet_cons {V : Type} (a : String × V) (d : List (String × V))
    (n : String) :
    pyDictGet (a :: d) n = if a.1 = n then some a.2 else pyDictGet d n := by
  by_cases h : a.1 = n
  · simp [pyDictGet, List.find?_cons, h]
  · simp [pyDictGet, List.find?_cons, h]

theorem pyDictGet_map_overwrite_ne {V : Type} (d : List (String × V))
    (k n : String) (v : V) (hkn : k ≠ n) :
    pyDictGet (d.map (fun p => if p.1 = k then (k, v) else p)) n =
      pyDictGet d n := by
  induction d with
  | nil => rfl
  | cons b d2 ih =>
    by_cases hbk : b.1 = k
    · simp only [List.map_cons, hbk, if_true]
      rw [pyDictGet_cons, pyDictGet_cons, hbk]
      simp [hkn, ih]
    · simp only [List.map_cons, hbk, if_false]
      rw [pyDictGet_cons, pyDictGet_cons, ih]

theorem pyDictGet_set {V : Type} (d : List (String × V)) (k n : String)
    (v : V) :
    pyDictGet (pyDictSet d k v) n = if n = k then some v else pyDictGet d n := by
  induction d with
  | nil =>
    by_cases h : n = k
    · subst h; simp [pyDictSet, pyDictGet]
    · have hkn : ¬ (k = n) := fun hh => h hh.symm
      simp [pyDictSet, pyDictGet, List.find?, h, hkn]
  | cons a d ih =>
    by_cases hak : a.1 = k
    · have hset : pyDictSet (a :: d) k v =
          (k, v) :: d.map (fun p => if p.1 = k then (k, v) else p) := by
        simp [pyDictSet, List.any_cons, hak]
      rw [hset, pyDictGet_cons]
      by_cases hnk : n = k
      · simp [hnk]
      · have hkn : k ≠ n := fun hh => hnk hh.symm
        simp only [hkn, if_false, hnk]
        rw [pyDictGet_cons, hak]
        simp only [hkn, if_false]
        exact pyDictGet_map_overwrite_ne d k n v hkn
    · rw [pyDictSet_cons_ne a d k v hak, pyDictGet_cons, pyDictGet_cons, ih]
      by_cases hnk : n = k
      · have han : a.1 ≠ n := fun hh => hak (hh.trans hnk)
        simp [hnk, han, hak]
      · simp [hnk]

theorem oor_assoc {A : Type} (a b c : Option A) :
    oor (oor a b) c = oor a (oor b c) := by
  cases a <;> rfl

theorem oor_none_right {A : Type} (a : Option A) : oor a none = a := by
  cases a <;> rfl

theorem any_key_eq_isSome_get {V : Type} (d : List (String × V)) (n : String) :
    d.any (fun q => decide (q.1 = n)) = (pyDictGet d n).isSome := by
  induction d with
  | nil => rfl
  | cons a d ih =>
    rw [List.any_cons, pyDictGet_cons]
    by_cases h : a.1 = n <;> simp [h, ih]

theorem any_key_pyDictSet {V : Type} (d : List (String × V)) (k n : String)
    (v : V) :
    (pyDictSet d k v).any (fun q => decide (q.1 = n)) =
      (d.any (fun q => decide (q.1 = n)) || decide (n = k)) := by
  rw [any_key_eq_isSome_get, any_key_eq_isSome_get, pyDictGet_set]
  by_cases h : n = k <;> simp [h]

theorem keys_pyDictSet {V : Type} (d : List (String × V)) (k : String)
    (v : V) :
    (pyDictSet d k v).map Prod.fst =
      if d.any (fun p => p.1 = k) then d.map Prod.fst
      else d.map Prod.fst ++ [k] := by
  by_cases h : d.any (fun p => decide (p.1 = k)) = true
  · simp only [pyDictSet, h, if_true, List.map_map]
    congr 1
    funext p
    by_cases hp : p.1 = k <;> simp [hp, Function.comp]
  · simp only [Bool.not_eq_true] at h
    simp [pyDictSet, h]

theorem Heap.store_write_self {V : Type} (h : Heap V) (a : Nat)
    (p : FinanceProduct V) : (h.write a p).store a = p := by
  simp [Heap.write]

theorem Heap.store_write_ne {V : Type} (h : Heap V) (a b : Nat)
    (p : FinanceProduct V) (hab : b ≠ a) : (h.write a p).store b = h.store b := by
  simp [Heap.write, hab]

theorem Heap.write_write {V : Type} (h : Heap V) (a : Nat)
    (p q : FinanceProduct V) : (h.write a p).write a q = h.write a q := by
  cases h with
  | mk nx st =>
    simp only [Heap.write, Heap.mk.injEq, true_and]
    funext a0
    by_cases h0 : a0 = a <;> simp [h0]

theorem Heap.write_self {V : Type} (h : Heap V) (a : Nat) :
    h.write a (h.store a) = h := by
  cases h with
  | mk nx st =>
    simp only [Heap.write, Heap.mk.injEq, true_and]
    funext a0
    by_cases h0 : a0 = a <;> simp [h0]

theorem Heap.next_write {V : Type} (h : Heap V) (a : Nat)
    (p : FinanceProduct V) : (h.write a p).next = h.next := rfl

theorem runAdds_cons {V : Type} (p : FinanceProduct V) (kv : Callable × V)
    (rest : List (Callable × V)) :
    runAdds p (kv :: rest) = runAdds (p.add_product kv.1 kv.2) rest := rfl

theorem runAdds_lookup {V : Type} (adds : List (Callable × V))
    (p : FinanceProduct V) (n : String) :
    pyDictGet (runAdds p adds).product_parts n =
      oor (lastAdded adds n) (pyDictGet p.product_parts n) := by
  induction adds generalizing p with
  | nil => simp [runAdds, lastAdded, oor]
  | cons kv rest ih =>
    rw [runAdds_cons, ih, lastAdded, oor_assoc]
    congr 1
    show pyDictGet (pyDictSet p.product_parts kv.1.name kv.2) n = _
    rw [pyDictGet_set]
    by_cases h : n = kv.1.name
    · simp [h, oor]
    · have h2 : kv.1.name ≠ n := fun hh => h hh.symm
      simp [h, h2, oor]

theorem runAdds_keys {V : Type} (adds : List (Callable × V))
    (p : FinanceProduct V) :
    (runAdds p adds).product_parts.map Prod.fst =
      p.product_parts.map Prod.fst ++
        (firstOccur (adds.map (fun kv => kv.1.name))).filter
          (fun n => !(p.product_parts.any (fun q => q.1 = n))) := by
  induction adds generalizing p with
  | nil => simp [runAdds, firstOccur]
  | cons kv rest ih =>
    rw [runAdds_cons, ih]
    have hfun :
        (fun n => !((p.add_product kv.1 kv.2).product_parts.any
            (fun q => decide (q.1 = n)))) =
          (fun n => (!(p.product_parts.any (fun q => decide (q.1 = n))))
            && !(decide (n = kv.1.name))) := by
      funext n
      show (!((pyDictSet p.product_parts kv.1.name kv.2).any
          (fun q => decide (q.1 = n)))) = _
      rw [any_key_pyDictSet]
      simp [Bool.not_or]
    rw [hfun]
    simp only [List.map_cons, firstOccur]
    by_cases hp : p.product_parts.any (fun q => decide (q.1 = kv.1.name)) = true
    · have hkeys : (p.add_product kv.1 kv.2).product_parts.map Prod.fst
          = p.product_parts.map Prod.fst := by
        show (pyDictSet p.product_parts kv.1.name kv.2).map Prod.fst = _
        rw [keys_pyDictSet]
        simp [hp]
      rw [hkeys, List.filter_cons]
      have hpredname :
          (!(p.product_parts.any (fun q => decide (q.1 = kv.1.name)))) = false := by
        simp [hp]
      simp only [hpredname, Bool.false_eq_true, if_false]
      congr 1
      rw [List.filter_filter]
      congr 1
      funext n
      by_cases hn : n = kv.1.name
      · subst hn; simp [hp]
      · simp [hn]
    · have hp2 : p.product_parts.any (fun q => decide (q.1 = kv.1.name)) = false := by
        simp only [Bool.not_eq_true] at hp; exact hp
      have hkeys : (p.add_product kv.1 kv.2).product_parts.map Prod.fst
          = p.product_parts.map Prod.fst ++ [kv.1.name] := by
        show (pyDictSet p.product_parts kv.1.name kv.2).map Prod.fst = _
        rw [keys_pyDictSet]
        simp [hp2]
      rw [hkeys, List.filter_cons]
      have hpredname :
          (!(p.product_parts.any (fun q => decide (q.1 = kv.1.name)))) = true := by
        simp [hp2]
      simp only [hpredname, if_true, List.append_assoc, List.singleton_append]
      congr 2
      rw [List.filter_filter]
      congr 1
      funext n
      by_cases hn : n = kv.1.name
      · subst hn; simp [hp2]
      · simp [hn]

theorem run_addProducts {V : Type} (adds : List (Callable × V))
    (s : DesignerState V) (h : Heap V) :
    BOp.run (adds.map (fun kv => BOp.addProduct kv.1 kv.2)) (s, h) =
      (s, h.write s.productAddr (runAdds (h.store s.productAddr) adds)) := by
  induction adds generalizing h with
  | nil =>
    show (s, h) = (s, h.write s.productAddr (h.store s.productAddr))
    rw [Heap.write_self]
  | cons kv rest ih =>
    show BOp.run (List.map _ rest)
        (BOp.step (BOp.addProduct kv.1 kv.2) (s, h)) = _
    rw [show BOp.step (BOp.addProduct kv.1 kv.2) (s, h) =
        (s, h.write s.productAddr ((h.store s.productAddr).add_product kv.1 kv.2))
      from rfl]
    rw [ih]
    rw [Heap.store_write_self, Heap.write_write, runAdds_cons]

theorem runAllTrickers_productAddr {V : Type} (f : String)
    (s s2 : DesignerState V)
    (hE : DesignerState.runAllTrickers f s = Except.ok s2) :
    s2.productAddr = s.productAddr := by
  unfold DesignerState.runAllTrickers at hE
  cases hA : all_trickers (TickersArg.plainDict s.tickers) s.keyword_list f with
  | ok d => rw [hA] at hE; cases hE; rfl
  | error e => rw [hA] at hE; cases hE

theorem step_frame {V : Type} (op : BOp V) (s : DesignerState V) (h : Heap V)
    (a : Nat) (ha : a < h.next) (hne : a ≠ s.productAddr) :
    (BOp.step op (s, h)).2.store a = h.store a ∧
    a < (BOp.step op (s, h)).2.next ∧
    a ≠ (BOp.step op (s, h)).1.productAddr := by
  cases op with
  | getOp f =>
    cases hE : DesignerState.runAllTrickers f s with
    | ok s2 =>
      have haddr := runAllTrickers_productAddr f s s2 hE
      simp only [BOp.step, hE]
      exact ⟨trivial, ha, fun hh => hne (hh.trans haddr)⟩
    | error e =>
      simp only [BOp.step, hE]
      exact ⟨trivial, ha, hne⟩
  | chartHistory => exact ⟨rfl, ha, hne⟩
  | resetOp =>
    have hanext : a ≠ h.next := Nat.ne_of_lt ha
    refine ⟨?_, ?_, ?_⟩
    · show (if a = h.next then FinanceProduct.construct else h.store a) = h.store a
      simp [hanext]
    · exact Nat.lt_succ_of_lt ha
    · exact hanext
  | stockOp =>
    have hanext : a ≠ h.next := Nat.ne_of_lt ha
    refine ⟨?_, ?_, ?_⟩
    · show (if a = h.next then FinanceProduct.construct else h.store a) = h.store a
      simp [hanext]
    · exact Nat.lt_succ_of_lt ha
    · exact hanext
  | addProduct k v =>
    refine ⟨?_, ha, hne⟩
    show ((h.write s.productAddr _).store a) = h.store a
    exact Heap.store_write_ne h s.productAddr a _ hne

theorem run_frame {V : Type} (ops : List (BOp V)) (s : DesignerState V)
    (h : Heap V) (a : Nat) (ha : a < h.next) (hne : a ≠ s.productAddr) :
    (BOp.run ops (s, h)).2.store a = h.store a := by
  induction ops generalizing s h with
  | nil => rfl
  | cons op rest ih =>
    obtain ⟨h1, h2, h3⟩ := step_frame op s h a ha hne
    show (BOp.run rest (BOp.step op (s, h))).2.store a = h.store a
    rw [← h1]
    exact ih (BOp.step op (s, h)).1 (BOp.step op (s, h)).2 h2 h3

/-- Collect once (read the `stock` property) and return the contents of
the product object it hands back. -/
def collectAfter {V : Type} (sh : DesignerState V × Heap V) :
    List (String × V) :=
  let r := DesignerState.stock sh.1 sh.2
  (r.2.2.store r.1).product_parts

/-- A trivial backend for concrete witnesses: every subject gets a
session with no resolvable attributes. -/
def nullBackend : String → Ticker Nat :=
  fun _ => Ticker.mk (fun _ => none)

/-- A concrete builder over one subject, for witnesses. -/
def demoBuilder : DesignerState Nat × Heap Nat :=
  DesignerState.construct nullBackend ["AAPL"] Heap.emptyHeap

/-- C1: the claim says `get_dividends` routes its fetched result into
the Product Accumulator via `add` under its own name, so that a
subsequent collect contains the key "get_dividends".  The code does
neither: on a Builder over `["AAPL", "MSFT"]`, `get_dividends` raises
`AttributeError('tickers')` (it passes `self.tickers`, a plain dict,
where `all_trickers` dereferences `.tickers`), and no operation ever
calls `add_product`, so a subsequent collect yields an empty mapping
with no `"get_dividends"` key. -/
theorem get_dividends_bypasses_accumulator (V : Type)
    (backend : String → Ticker V) (h : Heap V) :
    DesignerState.get_dividends
        (DesignerState.construct backend ["AAPL", "MSFT"] h).1 =
      Except.error (PyError.attributeError "tickers") ∧
    collectAfter (DesignerState.construct backend ["AAPL", "MSFT"] h) = [] := by
  constructor
  · rfl
  · have hne : h.next ≠ h.next + 1 := Nat.ne_of_lt (Nat.lt_succ_self _)
    simp [collectAfter, DesignerState.construct, DesignerState.stock,
      DesignerState.reset, Heap.alloc, hne, FinanceProduct.construct]

/-- C2 conclusion: reading `stock` on builder state `s` over heap `h`
returns the current product object untouched, swaps in a fresh empty
accumulator, and an immediate second read returns an empty product. -/
def stockReadThenClear {V : Type} (s : DesignerState V) (h : Heap V) : Prop :=
  let r := DesignerState.stock s h
  r.1 = s.productAddr ∧
  r.2.2.store r.1 = h.store s.productAddr ∧
  r.2.2.store r.2.1.productAddr = FinanceProduct.construct ∧
  (let r2 := DesignerState.stock r.2.1 r.2.2
   (r2.2.2.store r2.1).product_parts = [])

/-- C2: the `stock` accessor is read-then-clear — it returns the full
current accumulated product (whatever it holds) and leaves the builder
with an empty accumulator, so reading it twice without an intervening
add yields the accumulated product followed by an empty one.  The
well-formedness hypothesis says the builder's product reference is a
previously allocated address, as every reachable state satisfies. -/
theorem stock_read_then_clear (V : Type) (s : DesignerState V) (h : Heap V)
    (hwf : s.productAddr < h.next) : stockReadThenClear s h := by
  have hne : s.productAddr ≠ h.next := Nat.ne_of_lt hwf
  have hne2 : h.next ≠ h.next + 1 := Nat.ne_of_lt (Nat.lt_succ_self _)
  refine ⟨rfl, ?_, ?_, ?_⟩
  · show (if s.productAddr = h.next then _ else h.store s.productAddr) = _
    simp [hne]
  · show (if h.next = h.next then _ else _) = _
    simp
  · show ((if h.next = h.next + 1 then _ else
        (if h.next = h.next then FinanceProduct.construct
          else h.store h.next)) : FinanceProduct V).product_parts = []
    simp [hne2, FinanceProduct.construct]

/-- C2 witness: the theorem applied to a freshly constructed builder. -/
theorem stock_read_then_clear_witness :
    demoBuilder.1.productAddr < demoBuilder.2.next ∧
    stockReadThenClear demoBuilder.1 demoBuilder.2 :=
  ⟨by decide, stock_read_then_clear Nat demoBuilder.1 demoBuilder.2 (by decide)⟩

/-- C3: the claim says `all_trickers`, given the Builder's backend
session handle(s), the subject list and an operation name, returns one
entry per subject.  The Builder's handle (`self.tickers` from
`__init__`) is a plain dict, and `all_trickers` dereferences `.tickers`
on it, so for any non-empty subject list the call raises
`AttributeError('tickers')` instead of returning a mapping — here shown
on a Builder constructed over `["AAPL"]`. -/
theorem all_trickers_on_builder_handle_raises (V : Type)
    (backend : String → Ticker V) (h : Heap V) :
    all_trickers
        (TickersArg.plainDict
          (DesignerState.construct backend ["AAPL"] h).1.tickers)
        ["AAPL"] "dividends" =
      Except.error (PyError.attributeError "tickers") := rfl

/-- C4 conclusion: from a builder state whose accumulator is empty, a
sequence of `add_product` calls followed by one collect returns exactly
the pairs added — per-key lookup gives the LAST value added for that
key, the key order is first-add order — and an immediate second collect
returns an empty mapping. -/
def addsThenCollectSpec {V : Type} (adds : List (Callable × V))
    (s : DesignerState V) (h : Heap V) : Prop :=
  let sh := BOp.run (adds.map (fun kv => BOp.addProduct kv.1 kv.2)) (s, h)
  let r := DesignerState.stock sh.1 sh.2
  let collected := (r.2.2.store r.1).product_parts
  (∀ n, pyDictGet collected n = lastAdded adds n) ∧
  collected.map Prod.fst = firstOccur (adds.map (fun kv => kv.1.name)) ∧
  (let r2 := DesignerState.stock r.2.1 r.2.2
   (r2.2.2.store r2.1).product_parts = [])

/-- C4: for every sequence of `add(identifier, value)` calls on an
initially empty accumulator followed by one collect, the returned
mapping holds exactly the added pairs with later adds for the same
identifier overwriting earlier ones (not appending), and a second
immediate collect returns an empty mapping. -/
theorem adds_then_collect (V : Type) (adds : List (Callable × V))
    (s : DesignerState V) (h : Heap V) (hwf : s.productAddr < h.next)
    (hempty : h.store s.productAddr = FinanceProduct.construct) :
    addsThenCollectSpec adds s h := by
  have hne : s.productAddr ≠ h.next := Nat.ne_of_lt hwf
  have hcollect :
      ((DesignerState.stock
          (BOp.run (adds.map (fun kv => BOp.addProduct kv.1 kv.2)) (s, h)).1
          (BOp.run (adds.map (fun kv => BOp.addProduct kv.1 kv.2)) (s, h)).2).2.2.store
        (DesignerState.stock
          (BOp.run (adds.map (fun kv => BOp.addProduct kv.1 kv.2)) (s, h)).1
          (BOp.run (adds.map (fun kv => BOp.addProduct kv.1 kv.2)) (s, h)).2).1) =
        runAdds FinanceProduct.construct adds := by
    rw [run_addProducts, hempty]
    show (if s.productAddr = (h.write s.productAddr _).next then _
        else (h.write s.productAddr _).store s.productAddr) = _
    rw [Heap.next_write]
    simp [hne, Heap.store_write_self]
  refine ⟨?_, ?_, ?_⟩
  · intro n
    show pyDictGet ((DesignerState.stock _ _).2.2.store (DesignerState.stock _ _).1).product_parts n = _
    rw [hcollect, runAdds_lookup]
    simp [FinanceProduct.construct, pyDictGet, oor_none_right]
  · show ((DesignerState.stock _ _).2.2.store (DesignerState.stock _ _).1).product_parts.map Prod.fst = _
    rw [hcollect, runAdds_keys]
    simp [FinanceProduct.construct]
  · show ((DesignerState.stock _ _).2.2.store (DesignerState.stock _ _).1).product_parts = []
    rw [run_addProducts, hempty]
    have hne2 : (h.write s.productAddr (runAdds FinanceProduct.construct adds)).next ≠
        (h.write s.productAddr (runAdds FinanceProduct.construct adds)).next + 1 :=
      Nat.ne_of_lt (Nat.lt_succ_self _)
    simp [DesignerState.stock, DesignerState.reset, Heap.alloc, hne2,
      FinanceProduct.construct]

/-- C4 witness: two adds under distinct names, then collect, on a
freshly constructed builder. -/
theorem adds_then_collect_witness :
    demoBuilder.1.productAddr < demoBuilder.2.next ∧
    demoBuilder.2.store demoBuilder.1.productAddr = FinanceProduct.construct ∧
    addsThenCollectSpec
      [(Callable.mk "get_splits" 0, 1), (Callable.mk "get_actions" 1, 2)]
      demoBuilder.1 demoBuilder.2 :=
  ⟨by decide, by rfl,
    adds_then_collect Nat
      [(Callable.mk "get_splits" 0, 1), (Callable.mk "get_actions" 1, 2)]
      demoBuilder.1 demoBuilder.2 (by decide) (by rfl)⟩

/-- C5: a freshly constructed Director (`self._builder = None`) fails on
every one of its 21 forwarding methods with the no-builder-installed
condition (concretely, the `AttributeError` raised by looking the
builder method up on `None`).  The exception propagates before anything
executes, so — each forwarding call being modelled as a pure function
returning `Except.error` with no successor state — the Director's state
and the product heap are untouched. -/
theorem unconfigured_director_forwarding_fails (V : Type) :
    FinanceCollector.find_chart_histogram (FinanceCollector.construct : FinanceCollector V) =
      Except.error (noneAttr "get_chart_history") ∧
    FinanceCollector.find_isin_code (FinanceCollector.construct : FinanceCollector V) =
      Except.error (noneAttr "get_isin_code") ∧
    FinanceCollector.find_major_holders (FinanceCollector.construct : FinanceCollector V) =
      Except.error (noneAttr "get_major_holders") ∧
    FinanceCollector.find_institutional_holders (FinanceCollector.construct : FinanceCollector V) =
      Except.error (noneAttr "get_institutional_holders") ∧
    FinanceCollector.find_mutualfund_holders (FinanceCollector.construct : FinanceCollector V) =
      Except.error (noneAttr "get_mutualfund_holders") ∧
    FinanceCollector.find_dividends (FinanceCollector.construct : FinanceCollector V) =
      Except.error (noneAttr "get_dividends") ∧
    FinanceCollector.find_splits (FinanceCollector.construct : FinanceCollector V) =
      Except.error (noneAttr "get_splits") ∧
    FinanceCollector.find_actions (FinanceCollector.construct : FinanceCollector V) =
      Except.error (noneAttr "get_actions") ∧
    FinanceCollector.find_info (FinanceCollector.construct : FinanceCollector V) =
      Except.error (noneAttr "get_info") ∧
    FinanceCollector.find_calendar (FinanceCollector.construct : FinanceCollector V) =
      Except.error (noneAttr "get_calendar") ∧
    FinanceCollector.find_recommendations (FinanceCollector.construct : FinanceCollector V) =
      Except.error (noneAttr "get_recommendations") ∧
    FinanceCollector.find_earnings (FinanceCollector.construct : FinanceCollector V) =
      Except.error (noneAttr "get_earnings") ∧
    FinanceCollector.find_quarterly_earnings (FinanceCollector.construct : FinanceCollector V) =
      Except.error (noneAttr "get_quarterly_earnings") ∧
    FinanceCollector.find_financials (FinanceCollector.construct : FinanceCollector V) =
      Except.error (noneAttr "get_financials") ∧
    FinanceCollector.find_quarterly_financials (FinanceCollector.construct : FinanceCollector V) =
      Except.error (noneAttr "get_quarterly_financials") ∧
    FinanceCollector.find_balancesheet (FinanceCollector.construct : FinanceCollector V) =
      Except.error (noneAttr "get_balancesheet") ∧
    FinanceCollector.find_quarterly_balancesheet (FinanceCollector.construct : FinanceCollector V) =
      Except.error (noneAttr "get_quarterly_balancesheet") ∧
    FinanceCollector.find_cashflow (FinanceCollector.construct : FinanceCollector V) =
      Except.error (noneAttr "get_cashflow") ∧
    FinanceCollector.find_quarterly_cashflow (FinanceCollector.construct : FinanceCollector V) =
      Except.error (noneAttr "get_quarterly_cashflow") ∧
    FinanceCollector.find_sustainability (FinanceCollector.construct : FinanceCollector V) =
      Except.error (noneAttr "get_sustainability") ∧
    FinanceCollector.find_options (FinanceCollector.construct : FinanceCollector V) =
      Except.error (noneAttr "get_options") :=
  ⟨rfl, rfl, rfl, rfl, rfl, rfl, rfl, rfl, rfl, rfl, rfl, rfl, rfl, rfl,
    rfl, rfl, rfl, rfl, rfl, rfl, rfl⟩

/-- C6: the summary accessor `list_product_parts` — typed here as a pure
function of the product, matching the source property which performs no
assignment — lists the stored identifiers in insertion order after any
sequence of adds from empty (first-add order, duplicates collapsed), and
after storing `get_splits` then `get_actions` it returns exactly
"Product parts: get_splits, get_actions". -/
theorem summary_lists_insertion_order (V : Type) :
    (∀ adds : List (Callable × V),
      (runAdds FinanceProduct.construct adds).list_product_parts =
        "Product parts: " ++ String.intercalate ", "
          (firstOccur (adds.map (fun kv => kv.1.name)))) ∧
    (∀ v w : V,
      ((FinanceProduct.construct.add_product (Callable.mk "get_splits" 0)
          v).add_product (Callable.mk "get_actions" 1) w).list_product_parts =
        "Product parts: get_splits, get_actions") := by
  constructor
  · intro adds
    show "Product parts: " ++ String.intercalate ", "
        ((runAdds FinanceProduct.construct adds).product_parts.map (fun q => q.1)) = _
    rw [show ((runAdds FinanceProduct.construct adds).product_parts.map
        (fun q => (q : String × V).1)) =
        ((runAdds FinanceProduct.construct adds).product_parts.map Prod.fst)
      from rfl]
    rw [runAdds_keys]
    simp [FinanceProduct.construct]
  · intro v w
    rfl

/-- The `builder` setter viewed on the full machine (Director plus the
product heap): `self._builder = builder` rebinds the reference and
performs no heap access at all. -/
def FinanceCollector.builderSetStep {V : Type} (c : FinanceCollector V)
    (h : Heap V) (b : DesignerState V) : FinanceCollector V × Heap V :=
  (c.builderSet b, h)

/-- C7: reassigning the Director's builder reference while the installed
builder's accumulator holds contents `ps` changes only the dispatch
target: the heap is untouched, so the previous builder's accumulator
still holds exactly `ps` afterwards. -/
theorem builder_swap_preserves_old_product (V : Type)
    (c : FinanceCollector V) (h : Heap V) (b0 b1 : DesignerState V)
    (ps : List (String × V)) (hb : c.builderRef = some b0)
    (hps : (h.store b0.productAddr).product_parts = ps) :
    (c.builderSetStep h b1).1.builderRef = some b1 ∧
    (c.builderSetStep h b1).2 = h ∧
    ((c.builderSetStep h b1).2.store b0.productAddr).product_parts = ps :=
  ⟨rfl, rfl, hps⟩

/-- A heap in which the demo builder's accumulator holds one entry. -/
def demoHeapFilled : Heap Nat :=
  demoBuilder.2.write demoBuilder.1.productAddr ⟨[("get_dividends", 5)]⟩

/-- A Director with the demo builder installed. -/
def demoDirector : FinanceCollector Nat :=
  FinanceCollector.construct.builderSet demoBuilder.1

/-- A second, different builder to swap in. -/
def demoBuilder2 : DesignerState Nat :=
  (DesignerState.construct nullBackend ["TSLA"] demoHeapFilled).1

/-- C7 witness: swapping `demoBuilder2` into a Director whose installed
builder's accumulator holds one entry. -/
theorem builder_swap_preserves_old_product_witness :
    demoDirector.builderRef = some demoBuilder.1 ∧
    (demoHeapFilled.store demoBuilder.1.productAddr).product_parts =
      [("get_dividends", 5)] ∧
    ((demoDirector.builderSetStep demoHeapFilled demoBuilder2).1.builderRef =
        some demoBuilder2 ∧
      (demoDirector.builderSetStep demoHeapFilled demoBuilder2).2 = demoHeapFilled ∧
      ((demoDirector.builderSetStep demoHeapFilled demoBuilder2).2.store
          demoBuilder.1.productAddr).product_parts = [("get_dividends", 5)]) :=
  ⟨rfl, by rfl,
    builder_swap_preserves_old_product Nat demoDirector demoHeapFilled
      demoBuilder.1 demoBuilder2 [("get_dividends", 5)] rfl (by rfl)⟩

/-- C8: running stage "fit", then "evaluate", then "predict" from any
starting context leaves the shared results mapping with the keys
"model", "evaluation" and "prediction" each bound (non-null) to the
value its own stage computed — so no later stage of the three has
overwritten a key written by an earlier different stage — and
`return_automl` is a plain read (it returns the mapping and produces no
successor state, so reading by key never drains the mapping; the three
lookups below all succeed on the same unconsumed mapping). -/
theorem staged_fit_evaluate_predict (V : Type) (c0 : AutoMLPipeline V)
    (vf ve vp : V) :
    pyDictGet
        (((((c0.setTrain (AutoMLStage.fit vf)).run_automl).setTrain
            (AutoMLStage.evaluate ve)).run_automl.setTrain
            (AutoMLStage.predict vp)).run_automl.return_automl) "model" =
      some vf ∧
    pyDictGet
        (((((c0.setTrain (AutoMLStage.fit vf)).run_automl).setTrain
            (AutoMLStage.evaluate ve)).run_automl.setTrain
            (AutoMLStage.predict vp)).run_automl.return_automl) "evaluation" =
      some ve ∧
    pyDictGet
        (((((c0.setTrain (AutoMLStage.fit vf)).run_automl).setTrain
            (AutoMLStage.evaluate ve)).run_automl.setTrain
            (AutoMLStage.predict vp)).run_automl.return_automl) "prediction" =
      some vp := by
  refine ⟨?_, ?_, ?_⟩ <;>
    simp [AutoMLPipeline.setTrain, AutoMLPipeline.run_automl,
      AutoMLStage.resultEntry, AutoMLPipeline.return_automl, pyDictGet_set]

/-- C9 conclusion: `return_product` is a pure read of the product's
dict, and once `stock` hands a product object out, that object's
contents are frozen — `stock` itself swapped in a fresh accumulator at a
different address, and no sequence of subsequent builder operations
(retrievals, adds, resets, further collects) ever writes to the
collected object's address. -/
def collectedProductFrozen {V : Type} (s : DesignerState V) (h : Heap V) :
    Prop :=
  let r := DesignerState.stock s h
  (∀ p : FinanceProduct V, p.return_product = p.product_parts) ∧
  r.2.2.store r.1 = h.store s.productAddr ∧
  r.2.1.productAddr ≠ r.1 ∧
  r.2.2.store r.2.1.productAddr = FinanceProduct.construct ∧
  (∀ ops : List (BOp V),
    (BOp.run ops (r.2.1, r.2.2)).2.store r.1 = h.store s.productAddr)

/-- C9: reading `return_product` is a pure, repeatable read; the clear
observed at collect is only the builder swapping in a fresh
`FinanceProduct`, and the product object an earlier collect returned is
never mutated by any later builder operation or collect. -/
theorem return_product_pure_and_collected_frozen (V : Type)
    (s : DesignerState V) (h : Heap V) (hwf : s.productAddr < h.next) :
    collectedProductFrozen s h := by
  have hne : s.productAddr ≠ h.next := Nat.ne_of_lt hwf
  refine ⟨fun p => rfl, ?_, ?_, ?_, ?_⟩
  · show (if s.productAddr = h.next then _ else h.store s.productAddr) = _
    simp [hne]
  · exact fun hh => hne hh.symm
  · show (if h.next = h.next then _ else _) = _
    simp
  · intro ops
    have hrun := run_frame ops
      (DesignerState.stock s h).2.1 (DesignerState.stock s h).2.2
      s.productAddr (Nat.lt_succ_of_lt hwf) hne
    rw [show (DesignerState.stock s h).1 = s.productAddr from rfl, hrun]
    show (if s.productAddr = h.next then _ else h.store s.productAddr) = _
    simp [hne]

/-- C9 witness: the theorem applied to a freshly constructed builder. -/
theorem return_product_pure_and_collected_frozen_witness :
    demoBuilder.1.productAddr < demoBuilder.2.next ∧
    collectedProductFrozen demoBuilder.1 demoBuilder.2 :=
  ⟨by decide,
    return_product_pure_and_collected_frozen Nat demoBuilder.1 demoBuilder.2
      (by decide)⟩

/-- C10: `add_product` takes a callable and keys the store by the
callable's `__name__`: for any two callables with the same `__name__` —
including two distinct function objects — adding `(f, v)` then `(g, w)`
to an empty accumulator leaves exactly one entry, under `f.__name__`,
holding `w`. -/
theorem add_product_keyed_by_dunder_name (V : Type) (f g : Callable)
    (v w : V) (hname : f.name = g.name) :
    (FinanceProduct.construct.add_product f v).add_product g w =
      FinanceProduct.mk [(f.name, w)] := by
  show FinanceProduct.mk (pyDictSet (pyDictSet [] f.name v) g.name w) = _
  rw [← hname]
  show FinanceProduct.mk (pyDictSet [(f.name, v)] f.name w) = _
  simp [pyDictSet]

/-- C10 witness: two distinct callables sharing the `__name__`
"get_dividends". -/
theorem add_product_keyed_by_dunder_name_witness :
    Callable.mk "get_dividends" 0 ≠ Callable.mk "get_dividends" 1 ∧
    (FinanceProduct.construct.add_product (Callable.mk "get_dividends" 0)
        (1 : Nat)).add_product (Callable.mk "get_dividends" 1) 2 =
      FinanceProduct.mk [("get_dividends", 2)] :=
  ⟨by decide,
    add_product_keyed_by_dunder_name Nat (Callable.mk "get_dividends" 0)
      (Callable.mk "get_dividends" 1) 1 2 rfl⟩
